import Mathlib

/-!
Shallow embedding of the `of_stats` statistics application
(src/stats.py, src/main.py) together with theorems settling the
specification claims about it.

Conventions of the embedding:
* Python integers become `Int`; Python floor division `//` becomes
  `Int.fdiv`.
* A Python value that may be `None` becomes an `Option`.
* A Python call that may raise becomes a value of `Except PyError` (or
  carries the raised error in a product when the side effects performed
  before the raise matter).
* The external `rrdtool` storage engine and the repository settings
  module are not under src/; the few facts about them that the claims
  need are modelled explicitly and documented as such at each
  definition.
-/

namespace OfStats

/-- Python-level exceptions that the modelled code can raise. -/
inductive PyError where
  | typeError
  | keyError
  | zeroDivisionError
  | fileNotFound
  | attributeError
  | rrdStale
deriving DecidableEq, Repr

/-! ## RRD.fetch_latest (src/stats.py lines 223-244)

`fetch_latest` calls `self.fetch(index, start='end-90s', end='now')`;
the triple `(tstamps, cols, rows)` that `fetch` hands back is modelled
as a `FetchResult`, and the `FileNotFoundError` raised by `fetch` when
the RRD file was never created is modelled by passing `none` instead of
a `FetchResult`. -/

/-- The `(tstamps, cols, rows)` triple returned by `RRD.fetch`:
`tstamps` is the list of row timestamps (ascending), `cols` the data
source names, `rows` the consolidated values (`none` is a null cell). -/
structure FetchResult where
  tstamps : List Int
  cols : List String
  rows : List (List (Option Int))
deriving DecidableEq, Repr

/-- The loop condition `row[0] is not None and tstamp > min_tstamp` of
`fetch_latest`.  Rows returned by rrdtool always hold one cell per
column, so `row.head?` models `row[0]` (the `IndexError` branch is
unreachable). -/
def qualifies (minT t : Int) (row : List (Option Int)) : Bool :=
  (match row.head? with
   | some (some _) => true
   | _ => false) && decide (minT < t)

/-- One iteration of the `for tstamp, row in zip(tstamps[::-1], rows[::-1])`
loop body of `fetch_latest`: `latest` is reassigned whenever the row
qualifies (note: the source has no `break`). -/
def scanStep (minT : Int) (latest : Option (List (Option Int)))
    (p : Int × List (Option Int)) : Option (List (Option Int)) :=
  if qualifies minT p.1 p.2 then some p.2 else latest

/-- The whole search loop of `fetch_latest`, starting from `latest = None`. -/
def scanLatest (minT : Int) (pairs : List (Int × List (Option Int))) :
    Option (List (Option Int)) :=
  List.foldl (scanStep minT) none pairs

/-- `RRD.fetch_latest` (src/stats.py lines 223-244).  `interval` is
`settings.STATS_INTERVAL` (the settings module is not under src/), and
`now` is `int(time.time())`.  `none` for `file` models the
`FileNotFoundError` branch; the returned association list models the
dict `{k: v for k, v in zip(cols, latest)}`. -/
def fetch_latest (interval : Nat) (now : Int) (file : Option FetchResult) :
    List (String × Option Int) :=
  match file with
  | none => []
  | some fr =>
    let minT : Int := now - (interval : Int) * 2
    let pairs := fr.tstamps.reverse.zip fr.rows.reverse
    let latest := scanLatest minT pairs
    let latestRow :=
      match latest with
      | none => List.replicate fr.cols.length (some (0 : Int))
      | some row =>
          if row.isEmpty then List.replicate fr.cols.length (some (0 : Int))
          else row
    fr.cols.zip latestRow

/-! ## RRD._get_archives (src/stats.py lines 246-256) -/

/-- The tuple of archive steps in `_get_archives`.  The source reads
`('1m', '2m', '4m', '8m', '15m', '30m', '1h', '2h', '4h' '8h', '12h',
'1d', '2d', '3d', '6d', '10d', '15d')`: the two adjacent literals
`'4h' '8h'` have no comma between them, and Python concatenates
adjacent string literals, which the `++` below mirrors. -/
def archiveSteps : List String :=
  ["1m", "2m", "4m", "8m", "15m", "30m", "1h", "2h", "4h" ++ "8h",
   "12h", "1d", "2d", "3d", "6d", "10d", "15d"]

/-- `RRD._get_archives`: one `RRA:AVERAGE:<xff>:<steps>:<period>` spec
per entry of `archiveSteps`.  `xff` is `settings.XFF` and `period` is
`settings.PERIOD` (the settings module is not under src/). -/
def getArchives (xff period : String) : List String :=
  archiveSteps.map
    (fun steps => "RRA:AVERAGE:" ++ xff ++ ":" ++ steps ++ ":" ++ period)

/-! ## RRD.update (src/stats.py lines 70-86)

`update` resolves the timestamp default, creates the RRD file when it
does not exist (`get_or_create_rrd`), serializes the declared data
sources in order (`':'.join(str(ds_values[ds]) for ds in self._ds)` —
a `KeyError` when a declared ds is missing from the keyword arguments,
while undeclared keyword arguments are never read), and then calls
`rrdtool.update`, whose stale-timestamp rejection is modelled below. -/

/-- The persisted state of one RRD file: the timestamp of the last
accepted update and the accepted raw rows. -/
structure SeriesState where
  lastT : Option Int
  samples : List (Int × List Int)
deriving DecidableEq, Repr

/-- The value serialization `str(ds_values[ds]) for ds in self._ds`:
looks every declared data source up in the supplied keyword arguments,
in declaration order, raising `KeyError` at the first missing one.
Undeclared keys of `vals` are never consulted. -/
def lookupAll (ds : List String) (vals : List (String × Int)) :
    Except PyError (List Int) :=
  match ds with
  | [] => Except.ok []
  | d :: rest =>
    match vals.lookup d with
    | none => Except.error PyError.keyError
    | some v =>
      match lookupAll rest vals with
      | Except.error e => Except.error e
      | Except.ok vs => Except.ok (v :: vs)

/-- Modelled from the spec: the external round-robin storage engine
(`rrdtool.update`) rejects — with an error, leaving the file unchanged —
any update whose timestamp does not exceed the last recorded one
("Timestamps supplied to the same Series must be monotonically
non-decreasing; the store rejects ... an update whose timestamp precedes
the last recorded timestamp"); otherwise it appends the row. -/
def rrdtoolUpdate (st : SeriesState) (t : Int) (row : List Int) :
    Except PyError SeriesState :=
  match st.lastT with
  | some l =>
      if t ≤ l then Except.error PyError.rrdStale
      else Except.ok ⟨some t, st.samples ++ [(t, row)]⟩
  | none => Except.ok ⟨some t, st.samples ++ [(t, row)]⟩

/-- `RRD.update` (src/stats.py lines 70-86).  `st = none` means the RRD
file for the index does not exist yet; `get_or_create_rrd` then creates
an empty one before anything else, so the file exists afterwards even
when a later step raises.  `tstamp = none` models the `'N'` default,
which rrdtool resolves to the current time `now`.  The first component
of the result is the file state afterwards, the second the exception
propagated to the caller (`none` on success); `update` itself catches
nothing. -/
def RRD.update (ds : List String) (now : Int) (st : Option SeriesState)
    (tstamp : Option Int) (vals : List (String × Int)) :
    Option SeriesState × Option PyError :=
  let st0 := st.getD ⟨none, []⟩
  let t := tstamp.getD now
  match lookupAll ds vals with
  | Except.error e => (some st0, some e)
  | Except.ok row =>
    match rrdtoolUpdate st0 t row with
    | Except.error e => (some st0, some e)
    | Except.ok st1 => (some st1, none)

/-! ## RRD.fetch and RRD._calc_start_end (src/stats.py lines 154-221) -/

/-- A `start`/`end` argument of `fetch`: Python `None`, an `int`, or a
string passed through to rrdtool (such as `'now'` or `'end-90s'`). -/
inductive TimeArg where
  | noneArg
  | intArg (n : Int)
  | strArg (s : String)
deriving DecidableEq, Repr

/-- `RRD._calc_start_end` (src/stats.py lines 203-221).  `interval` is
`settings.STATS_INTERVAL`; `now` is `int(time.time())`; `firstT` is
what `rrdtool.first(rrd)` returns for this file.  A defaulted `start`
with `n_points = None` evaluates `None * settings.STATS_INTERVAL`,
a `TypeError`; with an integer `n_points` but a string `end`, the
subtraction `end - n_points * interval` is likewise a `TypeError`.
Integer bounds are decremented by one at the end, exactly as in the
source. -/
def calc_start_end (interval : Nat) (now firstT : Int)
    (start fin : TimeArg) (n_points : Option Int) :
    Except PyError (TimeArg × TimeArg) :=
  let e := match fin with
    | TimeArg.noneArg => TimeArg.intArg now
    | x => x
  let s : Except PyError TimeArg :=
    match start with
    | TimeArg.noneArg =>
        match n_points with
        | none => Except.error PyError.typeError
        | some np =>
            match e with
            | TimeArg.intArg en =>
                Except.ok (TimeArg.intArg (en - np * (interval : Int)))
            | _ => Except.error PyError.typeError
    | TimeArg.strArg str =>
        if str = ("first") then Except.ok (TimeArg.intArg firstT)
        else Except.ok (TimeArg.strArg str)
    | other => Except.ok other
  match s with
  | Except.error err => Except.error err
  | Except.ok s0 =>
    let s1 := match s0 with
      | TimeArg.intArg n => TimeArg.intArg (n - 1)
      | x => x
    let e1 := match e with
      | TimeArg.intArg n => TimeArg.intArg (n - 1)
      | x => x
    Except.ok (s1, e1)

/-- The resolution computation of `RRD.fetch` (src/stats.py lines
187-193): when `n_points` is an int and both bounds are ints,
`resolution = (end - start) // n_points` (Python floor division,
`ZeroDivisionError` on zero), and the `-r` argument is passed exactly
when the quotient is positive.  `some r` means `-r {r}s` is requested. -/
def resolutionOf (start fin : TimeArg) (n_points : Option Int) :
    Except PyError (Option Int) :=
  match n_points with
  | none => Except.ok none
  | some np =>
    match start, fin with
    | TimeArg.intArg s, TimeArg.intArg e =>
        if np = 0 then Except.error PyError.zeroDivisionError
        else
          let r := Int.fdiv (e - s) np
          if 0 < r then Except.ok (some r) else Except.ok none
    | _, _ => Except.ok none

/-- The arguments `RRD.fetch` hands to `rrdtool.fetch`: the resolved
`--start` and `--end` values and the requested resolution, if any. -/
structure FetchArgs where
  fstart : TimeArg
  fend : TimeArg
  resolution : Option Int
deriving DecidableEq, Repr

/-- The argument-resolution phase of `RRD.fetch` (src/stats.py lines
154-196): raise `FileNotFoundError` when the RRD file does not exist,
then `_calc_start_end`, then the resolution computation — all before
any data is read from the file. -/
def RRD.fetch (interval : Nat) (now firstT : Int) (fileExists : Bool)
    (start fin : TimeArg) (n_points : Option Int) :
    Except PyError FetchArgs :=
  if fileExists then
    match calc_start_end interval now firstT start fin n_points with
    | Except.error e => Except.error e
    | Except.ok (s, e) =>
      match resolutionOf s e n_points with
      | Except.error err => Except.error err
      | Except.ok r => Except.ok ⟨s, e, r⟩
  else Except.error PyError.fileNotFound

/-! ## The timestamps RRD.fetch returns (src/stats.py lines 195-201)

`rrdtool.fetch` returns a triple `(start, stop, step)` plus columns and
rows; the source then returns `range(start + step, stop + 1, step)` as
the timestamp sequence. -/

/-- Python `range(start, stop, step)` for a positive step: the
`((stop - start + step - 1) // step)` elements
`start, start + step, ...` (empty when the count is non-positive). -/
def pyRange (start stop step : Int) : List Int :=
  if 0 < step then
    (List.range ((Int.fdiv (stop - start + step - 1) step).toNat)).map
      (fun i : Nat => start + step * (i : Int))
  else []

/-- The timestamp sequence `RRD.fetch` returns (src/stats.py line 201):
`range(start + step, stop + 1, step)` where `(fstart, fstop, fstep)` is
the triple `rrdtool.fetch` reported. -/
def fetchTimestamps (fstart fstop fstep : Int) : List Int :=
  pyRange (fstart + fstep) (fstop + 1) fstep

/-! ## The dispatcher (src/main.py lines 14-71) -/

/-- The two supported protocol dialects. -/
inductive OFVersion where
  | v1
  | v4
deriving DecidableEq, Repr

/-- An inbound reply message: its dialect and the declared statistic
kind value (`body_type.value` for v0x01 stats replies,
`multipart_type.value` for v0x04 multipart replies — the two enums share
their values, per the docstring of `Main._listen`). -/
structure ReplyMsg where
  version : OFVersion
  kindVal : Nat
deriving DecidableEq, Repr

/-- The keys of the collector registry `Main._stats` built in `setup`
(src/main.py lines 20-21): `StatsTypes.OFPST_PORT.value = 4` and
`StatsTypes.OFPST_FLOW.value = 1`. -/
def statsRegistryKeys : List Nat := [4, 1]

/-- Modelled from the spec: the attribute access `msg.body_type` on a
reply message.  A v0x01 stats reply carries its kind as `body_type`; a
v0x04 multipart reply carries it as `multipart_type` and has no
`body_type` attribute (src/main.py reads `multipart_type` for v0x04 in
`listen_v0x04` and `body_type` for v0x01 in `listen_v0x01`), so the
access raises `AttributeError` on a v0x04 message. -/
def bodyTypeValue : ReplyMsg → Except PyError Nat
  | ⟨OFVersion.v1, k⟩ => Except.ok k
  | ⟨OFVersion.v4, _⟩ => Except.error PyError.attributeError

/-- What the dispatcher did with a reply. -/
inductive DispatchOutcome where
  | dispatched (key : Nat)
  | dropped
deriving DecidableEq, Repr

/-- `Main._listen` (src/main.py lines 57-71) as reached from
`listen_v0x01`/`listen_v0x04`: `stats_type` is the kind value read per
dialect; a registered kind is dispatched to that collector's `listen`;
otherwise the log call `log.debug(..., msg.body_type.value, ...)` runs
before the reply is dropped. -/
def listenDispatch (m : ReplyMsg) : Except PyError DispatchOutcome :=
  if m.kindVal ∈ statsRegistryKeys then
    Except.ok (DispatchOutcome.dispatched m.kindVal)
  else
    match bodyTypeValue m with
    | Except.ok _ => Except.ok DispatchOutcome.dropped
    | Except.error e => Except.error e

/-! ## Rate derivation (modelled from the spec)

The rate derivation is performed by the external storage engine for the
`DS:<name>:COUNTER:...` data sources declared in `RRD.create_rrd`
(src/stats.py lines 132-152); the engine itself is not under src/. -/

/-- Modelled from the spec: "the store derives a rate = (Δvalue / Δtime)
between the two most recent raw samples ... If Δtime ≤ 0 or no prior
sample exists, the derived rate for that interval is undefined (null)",
and a counter decrease likewise yields null, never a negative rate.
`prev` is the previous raw sample `(t0, v0)` (or `none`), `(t1, v1)` the
current one. -/
def deriveRate (prev : Option (Int × Int)) (t1 v1 : Int) : Option ℚ :=
  match prev with
  | none => none
  | some (t0, v0) =>
    if t1 - t0 ≤ 0 then none
    else if v1 < v0 then none
    else some (((v1 - v0 : Int) : ℚ) / ((t1 - t0 : Int) : ℚ))

/-! ## Helper lemmas -/

/-- When no pair of the scanned list qualifies, the search loop of
`fetch_latest` returns its accumulator unchanged. -/
theorem foldl_scanStep_id (minT : Int) (pairs : List (Int × List (Option Int)))
    (acc : Option (List (Option Int)))
    (h : ∀ p ∈ pairs, qualifies minT p.1 p.2 = false) :
    List.foldl (scanStep minT) acc pairs = acc := by
  induction pairs generalizing acc with
  | nil => rfl
  | cons p rest ih =>
    have hp : qualifies minT p.1 p.2 = false := h p (by simp)
    have hstep : scanStep minT acc p = acc := by simp [scanStep, hp]
    simp only [List.foldl_cons, hstep]
    exact ih acc (fun q hq => h q (by simp [hq]))

/-- The search loop of `fetch_latest` returns either its accumulator or
the row of some qualifying pair. -/
theorem foldl_scanStep_cases (minT : Int) (pairs : List (Int × List (Option Int)))
    (acc : Option (List (Option Int))) :
    List.foldl (scanStep minT) acc pairs = acc ∨
    ∃ p ∈ pairs, qualifies minT p.1 p.2 = true ∧
      List.foldl (scanStep minT) acc pairs = some p.2 := by
  induction pairs generalizing acc with
  | nil => left; rfl
  | cons p rest ih =>
    simp only [List.foldl_cons]
    rcases ih (scanStep minT acc p) with h | ⟨q, hq, hqual, heq⟩
    · by_cases hc : qualifies minT p.1 p.2 = true
      · right
        exact ⟨p, by simp, hc, by rw [h]; simp [scanStep, hc]⟩
      · left
        rw [h]
        simp [scanStep, hc]
    · right
      exact ⟨q, by simp [hq], hqual, heq⟩

/-- A qualifying row has a first cell, hence is nonempty. -/
theorem qualifies_row_ne_nil (minT t : Int) (row : List (Option Int))
    (h : qualifies minT t row = true) : row ≠ [] := by
  intro hrow
  subst hrow
  simp [qualifies] at h

/-- Case analysis for `lookupAll`: either some declared data source is
missing from the supplied values and the serialization raises
`KeyError`, or every declared data source is present and it succeeds. -/
theorem lookupAll_cases (ds : List String) (vals : List (String × Int)) :
    (lookupAll ds vals = Except.error PyError.keyError ∧
      ∃ d ∈ ds, vals.lookup d = none) ∨
    ((∃ row, lookupAll ds vals = Except.ok row) ∧
      ∀ d ∈ ds, vals.lookup d ≠ none) := by
  induction ds with
  | nil => right; exact ⟨⟨[], rfl⟩, by simp⟩
  | cons d rest ih =>
    cases hd : vals.lookup d with
    | none =>
        left
        exact ⟨by simp [lookupAll, hd], d, by simp, hd⟩
    | some v =>
        rcases ih with ⟨herr, d2, hmem, hnone⟩ | ⟨⟨row, hok⟩, hall⟩
        · left
          refine ⟨by simp [lookupAll, hd, herr], d2, List.mem_cons_of_mem d hmem, hnone⟩
        · right
          refine ⟨⟨v :: row, by simp [lookupAll, hd, hok]⟩, ?_⟩
          intro x hx
          rcases List.mem_cons.mp hx with rfl | hx2
          · simp [hd]
          · exact hall x hx2

/-! ## Claim theorems -/

/-- C1 (code bug evidence): with two rows whose first value is non-null
and whose timestamps (100 and 110) both lie inside the freshness window
(`now = 115`, `STATS_INTERVAL = 30`, so `min_tstamp = 55`),
`fetch_latest` returns the row at timestamp 100 — the OLDEST qualifying
row — and not the row at timestamp 110, because the backwards scan
never breaks, so the last reassignment of `latest` wins. -/
theorem fetch_latest_returns_oldest_qualifying :
    fetch_latest 30 115 (some ⟨[100, 110], ["rx_bytes"], [[some 10], [some 20]]⟩)
        = [(("rx_bytes"), some 10)] ∧
    fetch_latest 30 115 (some ⟨[100, 110], ["rx_bytes"], [[some 10], [some 20]]⟩)
        ≠ [(("rx_bytes"), some 20)] := by
  exact ⟨rfl, by decide⟩

/-- C2: `fetch_latest` returns the empty mapping exactly when the RRD
file was never created; for an existing file it always returns a
nonempty mapping, and when no row qualifies (non-null first value and
timestamp inside the freshness window) it maps every declared column to
zero. -/
theorem fetch_latest_empty_iff_never_created (interval : Nat) (now : Int)
    (fr : FetchResult) (hcols : fr.cols ≠ []) :
    fetch_latest interval now none = [] ∧
    fetch_latest interval now (some fr) ≠ [] ∧
    ((∀ p ∈ fr.tstamps.reverse.zip fr.rows.reverse,
        qualifies (now - (interval : Int) * 2) p.1 p.2 = false) →
      fetch_latest interval now (some fr) =
        fr.cols.zip (List.replicate fr.cols.length (some 0))) := by
  obtain ⟨c, cs, hc⟩ : ∃ c cs, fr.cols = c :: cs := by
    cases h : fr.cols with
    | nil => exact absurd h hcols
    | cons a l => exact ⟨a, l, rfl⟩
  refine ⟨rfl, ?_, ?_⟩
  · cases hscan : scanLatest (now - (interval : Int) * 2)
        (fr.tstamps.reverse.zip fr.rows.reverse) with
    | none => simp [fetch_latest, hscan, hc, List.replicate_succ]
    | some row =>
      have hne : row ≠ [] := by
        rcases foldl_scanStep_cases (now - (interval : Int) * 2)
            (fr.tstamps.reverse.zip fr.rows.reverse) none with h | ⟨p, hp, hqual, heq⟩
        · rw [scanLatest, h] at hscan
          cases hscan
        · rw [scanLatest, heq] at hscan
          injection hscan with hscan2
          rw [← hscan2]
          exact qualifies_row_ne_nil _ _ _ hqual
      obtain ⟨x, xs, hx⟩ := List.exists_cons_of_ne_nil hne
      simp [fetch_latest, hscan, hc, hx, List.replicate_succ]
  · intro hnone
    have hscan : scanLatest (now - (interval : Int) * 2)
        (fr.tstamps.reverse.zip fr.rows.reverse) = none :=
      foldl_scanStep_id _ _ none hnone
    simp [fetch_latest, hscan]

/-- C2 witness: a created file whose only row is null inside the window
zero-fills its single declared column. -/
theorem fetch_latest_empty_iff_never_created_witness :
    fetch_latest 30 115 (some ⟨[100], ["rx_bytes"], [[none]]⟩)
      = [(("rx_bytes"), some 0)] := by
  have h := (fetch_latest_empty_iff_never_created 30 115
    ⟨[100], ["rx_bytes"], [[none]]⟩ (by decide)).2.2 (by decide)
  simpa using h

/-- C3 (code bug evidence): the archive list has sixteen entries, but
because the source writes the adjacent literals `'4h' '8h'` with no
comma between them (Python concatenates them), there is no `4h` archive
and no `8h` archive — instead a single bogus `4h8h` entry. -/
theorem archives_missing_4h_and_8h (xff period : String) :
    archiveSteps.length = 16 ∧
    ("4h") ∉ archiveSteps ∧
    ("8h") ∉ archiveSteps ∧
    ("4h8h") ∈ archiveSteps ∧
    (getArchives xff period).length = 16 := by
  refine ⟨rfl, by decide, by decide, by decide, ?_⟩
  rw [getArchives, List.length_map]
  rfl

/-- C4: for a fetch with integer start and end and a positive
`n_points`, when the floor quotient `(end - start) // n_points` is
positive, `RRD.fetch` requests exactly that resolution (the bound
decrements in `_calc_start_end` cancel in the difference), and the
requested resolution times `n_points` never exceeds the window — so an
archive whose step is at most the requested resolution yields at least
`n_points` buckets. -/
theorem fetch_requested_resolution (interval : Nat) (now firstT s0 e0 np : Int)
    (hnp : 0 < np) (hq : 0 < Int.fdiv (e0 - s0) np) :
    RRD.fetch interval now firstT true
        (TimeArg.intArg s0) (TimeArg.intArg e0) (some np) =
      Except.ok ⟨TimeArg.intArg (s0 - 1), TimeArg.intArg (e0 - 1),
        some (Int.fdiv (e0 - s0) np)⟩ ∧
    np * Int.fdiv (e0 - s0) np ≤ e0 - s0 := by
  constructor
  · have hcalc : calc_start_end interval now firstT
        (TimeArg.intArg s0) (TimeArg.intArg e0) (some np)
        = Except.ok (TimeArg.intArg (s0 - 1), TimeArg.intArg (e0 - 1)) := rfl
    have harith : e0 - 1 - (s0 - 1) = e0 - s0 := by ring
    have hres : resolutionOf (TimeArg.intArg (s0 - 1)) (TimeArg.intArg (e0 - 1))
        (some np) = Except.ok (some (Int.fdiv (e0 - s0) np)) := by
      simp only [resolutionOf, harith]
      rw [if_neg (by omega), if_pos hq]
    simp [RRD.fetch, hcalc, hres]
  · have h1 : Int.fdiv (e0 - s0) np = (e0 - s0) / np :=
      Int.fdiv_eq_ediv _ hnp.le
    have h2 := Int.ediv_add_emod (e0 - s0) np
    have h3 := Int.emod_nonneg (e0 - s0) (show np ≠ 0 by omega)
    rw [h1]
    linarith

/-- C4 witness: `n_points = 10` over the window `[0, 3600]` requests a
360-second resolution. -/
theorem fetch_requested_resolution_witness :
    RRD.fetch 30 0 0 true (TimeArg.intArg 0) (TimeArg.intArg 3600) (some 10) =
      Except.ok ⟨TimeArg.intArg (0 - 1), TimeArg.intArg (3600 - 1),
        some (Int.fdiv (3600 - 0) 10)⟩ :=
  (fetch_requested_resolution 30 0 0 0 3600 10 (by decide) (by decide)).1

/-- C5 counterexample: after an accepted update at timestamp 100,
updating at timestamp 90 is NOT silently dropped — the error component
of `RRD.update` is not `none`, i.e. the storage engine's rejection
propagates to the caller, refuting the claim's "not raised to the
caller". -/
theorem stale_update_error_counterexample :
    (RRD.update [("rx_bytes")] 0 (some ⟨some 100, [(100, [5])]⟩) (some 90)
      [(("rx_bytes"), 7)]).2 ≠ none := by
  decide

/-- C5 amended: an update whose timestamp is strictly smaller than the
last recorded one leaves the stored state unchanged, but the stale
rejection is raised to the caller (nothing in `RRD.update` catches or
logs it). -/
theorem stale_update_state_unchanged (ds : List String) (now l t : Int)
    (st : SeriesState) (vals : List (String × Int)) (row : List Int)
    (hlast : st.lastT = some l) (hstale : t < l)
    (hvals : lookupAll ds vals = Except.ok row) :
    RRD.update ds now (some st) (some t) vals =
      (some st, some PyError.rrdStale) := by
  simp only [RRD.update, Option.getD_some, hvals]
  simp [rrdtoolUpdate, hlast, le_of_lt hstale]

/-- C5 amended witness: updates at timestamps 100 then 90 — the second
leaves the state reflecting only the first and raises. -/
theorem stale_update_state_unchanged_witness :
    RRD.update [("rx_bytes")] 0 (some ⟨some 100, [(100, [5])]⟩) (some 90)
        [(("rx_bytes"), 7)] =
      (some ⟨some 100, [(100, [5])]⟩, some PyError.rrdStale) :=
  stale_update_state_unchanged [("rx_bytes")] 0 100 90 ⟨some 100, [(100, [5])]⟩
    [(("rx_bytes"), 7)] [7] rfl (by decide) rfl

/-- C6 counterexample: supplying an extra undeclared counter (`bogus`)
alongside the declared one does NOT make `RRD.update` fail — the
supplied key set differs from the declared set, yet no error is raised,
refuting the claim's "both a missing counter and an extra undeclared
counter are rejected". -/
theorem extra_counter_accepted_counterexample :
    (RRD.update [("rx_bytes")] 0 none (some 100)
        [(("rx_bytes"), 5), (("bogus"), 1)]).2 = none ∧
    ¬ (("bogus") ∈ [("rx_bytes")]) := by
  decide

/-- C6 amended: `RRD.update` on a fresh index fails exactly when some
DECLARED counter is missing from the supplied values (a `KeyError` from
the serialization); extra undeclared counters are silently ignored.
When it fails, no row is stored — though the backing file has already
been created empty by `get_or_create_rrd`. -/
theorem update_fails_iff_missing_counter (ds : List String) (now : Int)
    (tstamp : Option Int) (vals : List (String × Int)) :
    ((RRD.update ds now none tstamp vals).2 ≠ none ↔
      ∃ d ∈ ds, vals.lookup d = none) ∧
    ((RRD.update ds now none tstamp vals).2 ≠ none →
      (RRD.update ds now none tstamp vals).1 = some ⟨none, []⟩) := by
  rcases lookupAll_cases ds vals with ⟨herr, hex⟩ | ⟨⟨row, hok⟩, hall⟩
  · constructor
    · simp only [RRD.update, herr]
      simpa using hex
    · intro _
      simp [RRD.update, herr]
  · constructor
    · simp only [RRD.update, hok]
      constructor
      · intro h
        exact absurd (by simp [rrdtoolUpdate]) h
      · intro ⟨d, hd, hnone⟩
        exact absurd hnone (hall d hd)
    · intro h
      exact absurd (by simp [RRD.update, hok, rrdtoolUpdate]) h

/-- C6 amended witness: with the single declared counter missing from
the supplied values, the update fails and the freshly created file
holds no rows. -/
theorem update_fails_iff_missing_counter_witness :
    (RRD.update [("rx_bytes")] 0 none (some 100) []).1 = some ⟨none, []⟩ :=
  (update_fails_iff_missing_counter [("rx_bytes")] 0 (some 100) []).2 (by decide)

/-- C7 (code bug evidence): a v0x01 reply with the unregistered kind 2
(`OFPST_AGGREGATE`) is logged and dropped without raising, but a v0x04
reply with the unregistered kind 13 raises `AttributeError`, because the
drop-path log line reads `msg.body_type.value` and a v0x04 multipart
reply has no `body_type` attribute. -/
theorem unknown_kind_v0x04_raises :
    listenDispatch ⟨OFVersion.v1, 2⟩ = Except.ok DispatchOutcome.dropped ∧
    listenDispatch ⟨OFVersion.v4, 13⟩ = Except.error PyError.attributeError ∧
    (2 ∉ statsRegistryKeys) ∧ (13 ∉ statsRegistryKeys) := by
  refine ⟨rfl, rfl, by decide, by decide⟩

/-- C8: counter values `[100, 150]` at timestamps `[0, 10]` derive the
rate 5; no prior sample, a non-positive elapsed time, or a counter
decrease each derive null; and a derived rate is never negative. -/
theorem rate_derivation_spec (t0 v0 t1 v1 : Int) :
    deriveRate (some (0, 100)) 10 150 = some 5 ∧
    deriveRate none t1 v1 = none ∧
    (v1 < v0 → deriveRate (some (t0, v0)) t1 v1 = none) ∧
    (t1 - t0 ≤ 0 → deriveRate (some (t0, v0)) t1 v1 = none) ∧
    (∀ q : ℚ, deriveRate (some (t0, v0)) t1 v1 = some q → 0 ≤ q) := by
  refine ⟨by norm_num [deriveRate], rfl, ?_, ?_, ?_⟩
  · intro h
    by_cases hdt : t1 - t0 ≤ 0
    · simp [deriveRate, hdt]
    · simp [deriveRate, hdt, h]
  · intro h
    simp [deriveRate, h]
  · intro q hq
    by_cases hdt : t1 - t0 ≤ 0
    · simp [deriveRate, hdt] at hq
    · by_cases hv : v1 < v0
      · simp [deriveRate, hdt, hv] at hq
      · simp only [deriveRate, if_neg hdt, if_neg hv, Option.some.injEq] at hq
        rw [← hq]
        apply div_nonneg
        · push_cast
          rw [sub_nonneg]
          exact_mod_cast not_lt.mp hv
        · push_cast
          rw [sub_nonneg]
          exact_mod_cast le_of_lt (show t0 < t1 by omega)

/-- C8 witness: a counter decrease (150 then 140) derives null, and the
rate example derives 5. -/
theorem rate_derivation_spec_witness :
    deriveRate (some ((0 : Int), (150 : Int))) 10 140 = none ∧
    deriveRate (some ((0 : Int), (100 : Int))) 10 150 = some 5 :=
  ⟨(rate_derivation_spec 0 150 10 140).2.2.1 (by decide),
   (rate_derivation_spec 0 150 10 140).1⟩

/-- C9: when rrdtool reports step-aligned bounds `fstart ≤ fstop` with
positive step and one row per step, the timestamp sequence the source
builds as `range(start + step, stop + 1, step)` is exactly the
arithmetic progression `fstart + step, fstart + 2*step, ..., fstop`:
each returned timestamp is step-aligned, strictly greater than
`fstart`, at most `fstop`, and there is one returned row per returned
timestamp. -/
theorem fetch_timestamp_progression (fstart fstop fstep : Int)
    (rows : List (List (Option Int)))
    (hstep : 0 < fstep) (hds : fstep ∣ fstart) (hde : fstep ∣ fstop)
    (hle : fstart ≤ fstop)
    (hrows : rows.length = (Int.fdiv (fstop - fstart) fstep).toNat) :
    fetchTimestamps fstart fstop fstep =
      (List.range ((Int.fdiv (fstop - fstart) fstep).toNat)).map
        (fun i : Nat => fstart + fstep * ((i : Int) + 1)) ∧
    (fetchTimestamps fstart fstop fstep).length = rows.length ∧
    (∀ t ∈ fetchTimestamps fstart fstop fstep,
      fstep ∣ t ∧ fstart < t ∧ t ≤ fstop) := by
  obtain ⟨m, hm⟩ : fstep ∣ (fstop - fstart) := dvd_sub hde hds
  have hm0 : 0 ≤ m := by
    have h0 : 0 ≤ fstep * m := by rw [← hm]; omega
    exact (mul_nonneg_iff_of_pos_left hstep).mp h0
  have hfd : Int.fdiv (fstop - fstart) fstep = m := by
    rw [hm]
    exact Int.mul_fdiv_cancel_left m (by omega)
  have harg : fstop + 1 - (fstart + fstep) + fstep - 1 = fstop - fstart := by
    ring
  have hmain : fetchTimestamps fstart fstop fstep =
      (List.range ((Int.fdiv (fstop - fstart) fstep).toNat)).map
        (fun i : Nat => fstart + fstep * ((i : Int) + 1)) := by
    unfold fetchTimestamps pyRange
    rw [if_pos hstep, harg]
    apply List.map_congr_left
    intro i _
    ring
  refine ⟨hmain, ?_, ?_⟩
  · rw [hmain, hrows, List.length_map, List.length_range]
  · intro t ht
    rw [hmain] at ht
    simp only [List.mem_map, List.mem_range] at ht
    obtain ⟨i, hi, rfl⟩ := ht
    have htn : ((Int.fdiv (fstop - fstart) fstep).toNat : Int) = m := by
      rw [hfd]
      exact Int.toNat_of_nonneg hm0
    have hik : (i : Int) + 1 ≤ m := by
      have hcast : (i : Int) < m := by
        rw [← htn]
        exact_mod_cast hi
      omega
    refine ⟨dvd_add hds (dvd_mul_right fstep _), ?_, ?_⟩
    · have hpos : 0 < fstep * ((i : Int) + 1) :=
        mul_pos hstep (by omega)
      linarith
    · have hmul : fstep * ((i : Int) + 1) ≤ fstep * m :=
        mul_le_mul_of_nonneg_left hik (le_of_lt hstep)
      have hwin : fstep * m = fstop - fstart := hm.symm
      linarith

/-- C9 witness: with aligned bounds 100 and 130 at step 10 and three
rows, the returned timestamps `[110, 120, 130]` are one per row. -/
theorem fetch_timestamp_progression_witness :
    (fetchTimestamps 100 130 10).length =
      ([[], [], []] : List (List (Option Int))).length :=
  (fetch_timestamp_progression 100 130 10 [[], [], []] (by decide)
    (by decide) (by decide) (by decide) (by decide)).2.1

/-- C10: calling `RRD.fetch` on an existing file with both `start` and
`n_points` defaulted raises `TypeError` — the default start computes
`end - None * STATS_INTERVAL` — before anything is read from the file
(the result does not depend on the end argument or the file's data). -/
theorem fetch_default_args_type_error (interval : Nat) (now firstT : Int)
    (fin : TimeArg) :
    RRD.fetch interval now firstT true TimeArg.noneArg fin none =
      Except.error PyError.typeError := by
  cases fin <;> rfl

end OfStats
